import Mathlib

/-!
Verification of the window-lifecycle and render-loop core of the `daswin`
repository (`src/main.rs`), via a shallow embedding in Lean 4.

Modelling conventions:
* X atoms (`xlib::Atom`, a C `unsigned long`) are `Nat`; the cast
  `data.get_long(0) as xlib::Atom` (an `i64` to `u64` cast on 64-bit Linux)
  is modelled by `longToAtom`, i.e. reduction modulo `2 ^ 64`.
* Calls into Xlib and wgpu are modelled as emitted operations in a trace
  (`Op`); the external world's replies (whether `XOpenDisplay` succeeds, the
  queued events, whether frame acquisition succeeds, the supported format and
  alpha-mode lists) are inputs to the model.
* A Rust panic (`panic!`, `unwrap`, `expect`, out-of-bounds indexing) is an
  `Op.fatal` entry in the trace followed by unwinding; during unwinding the
  destructors of constructed locals run (Rust's default `panic = unwind`), so
  the `Drop` impl of a constructed `X11Window` still executes.
* The event buffer `event: xlib::XEvent` of `main` starts uninitialized
  (`MaybeUninit::uninit().assume_init()`); it is modelled as an arbitrary,
  unconstrained initial `XEvent` value supplied by the environment.
-/

/-- X atom identifiers (`xlib::Atom`, `c_ulong`). -/
abbrev Atom := Nat

/-- The `i64 → u64` cast performed by `data.get_long(0) as xlib::Atom`:
two's-complement reduction modulo `2 ^ 64`. -/
def longToAtom (x : Int) : Atom :=
  (x % ((2 : Int) ^ 64)).toNat

/-- The fields of `xlib::XClientMessageEvent` that `main` inspects:
`message_type`, `format`, and the first `long` data word. -/
structure XClientMessageEvent where
  message_type : Atom
  format : Int
  data0 : Int
deriving DecidableEq, Repr

/-- An X event, discriminated the way `event.get_type()` is matched in the
source (`ClientMessage`, `KeyPress`, `KeyRelease`, `ButtonPress`,
`ButtonRelease`, `MotionNotify`, and a catch-all for every other type). -/
inductive XEvent where
  | clientMessage (m : XClientMessageEvent)
  | keyPress
  | keyRelease
  | buttonPress
  | buttonRelease
  | motionNotify
  | other (ty : Int)
deriving DecidableEq, Repr

/-- One queued event together with the input method's verdict: the `Bool` is
true when `XFilterEvent` consumes the event (returns nonzero). -/
abbrev QueuedEvent := XEvent × Bool

/-- The `X11Window` struct of the source: display connection handle, window
identifier, screen index, and the two atoms interned at construction. -/
structure X11Window where
  display : Nat
  window : Nat
  screen : Int
  wm_protocols : Atom
  wm_delete_window : Atom
deriving DecidableEq, Repr

/-- The title bytes handed to `CString::new` contain an embedded NUL. -/
def titleHasNul (title : List Nat) : Bool :=
  title.contains 0

/-- Byte view of a Rust `&str` (the titles in scope are ASCII, where UTF-8
bytes coincide with code points; a 0 byte occurs exactly for `U+0000`). -/
def strBytes (s : String) : List Nat :=
  s.toList.map Char.toNat

/-- An RGBA double color (`wgpu::Color`); the components used by the program
are the exact constants 0.0 and 1.0, represented exactly in `ℚ`. -/
structure Color where
  r : ℚ
  g : ℚ
  b : ℚ
  a : ℚ
deriving DecidableEq, Repr

/-- `wgpu::Color::GREEN`. -/
def Color.GREEN : Color :=
  { r := 0, g := 1, b := 0, a := 1 }

/-- The parts of the `wgpu::RenderPipelineDescriptor` that the claims are
about: the vertex-buffer layout list (`buffers: &[]`) and the fragment
target formats (`[swapchain_format]`). -/
structure RenderPipelineDesc where
  vertexBuffers : List Nat
  fragmentTargets : List Nat
deriving DecidableEq, Repr

/-- The render pipeline built in `main`: no vertex buffer layouts, one
fragment target at the chosen swapchain format. -/
def render_pipeline (format : Nat) : RenderPipelineDesc :=
  { vertexBuffers := [], fragmentTargets := [format] }

/-- Commands recorded inside a render pass. -/
inductive PassCmd where
  | setPipeline (p : RenderPipelineDesc)
  | setVertexBuffer (slot : Nat)
  | draw (vStart vEnd iStart iEnd : Nat)
deriving DecidableEq, Repr

/-- A render-pass descriptor: the clear color of the single color attachment
(`LoadOp::Clear`) and its store flag. -/
structure RenderPassDesc where
  loadClear : Color
  store : Bool
deriving DecidableEq, Repr

/-- A finished command buffer: the passes recorded by the encoder, each with
its descriptor and recorded commands. -/
structure CommandBuffer where
  passes : List (RenderPassDesc × List PassCmd)
deriving DecidableEq, Repr

/-- Operations the program issues against the display server and the
graphics backend, in trace order.  `fatal` marks a Rust panic. -/
inductive Op where
  | xOpenDisplay
  | xCreateWindow
  | xStoreName
  | xInternAtom (name : String)
  | xSetWMProtocols
  | xMapWindow
  | xDestroyWindow
  | xCloseDisplay
  | fatal (msg : String)
  | acquireFrame
  | createView
  | submit (cb : CommandBuffer)
  | dropView
  | dropFrame
deriving DecidableEq, Repr

/-- Replies of the display server consumed by `X11Window::new`: whether
`XOpenDisplay` returns non-null, and the concrete handles and atom values it
hands back. -/
structure NewEnv where
  displayOk : Bool
  displayHandle : Nat
  screen : Int
  windowId : Nat
  protocolsAtom : Atom
  deleteWindowAtom : Atom
deriving Repr

/-- `X11Window::new` (src/main.rs:28-89): open the display (`panic!` when it
is null), create the window, convert the title with `CString::new(..).unwrap()`
(a panic when the title holds an embedded NUL — at that point the display
connection and the window already exist and no destructor runs, since the
`X11Window` value was never constructed), store the name, intern the two
atoms, register the WM protocols, and return the struct.  Returns the trace
of issued operations and the constructed window, or `none` after a panic. -/
def X11Window.new (env : NewEnv) (title : List Nat) :
    List Op × Option X11Window :=
  if !env.displayOk then
    ([Op.xOpenDisplay, Op.fatal "XOpenDisplay failed"], none)
  else if titleHasNul title then
    ([Op.xOpenDisplay, Op.xCreateWindow,
      Op.fatal "called Result::unwrap on an Err value: NulError"], none)
  else
    ([Op.xOpenDisplay, Op.xCreateWindow, Op.xStoreName,
      Op.xInternAtom "WM_PROTOCOLS", Op.xInternAtom "WM_DELETE_WINDOW",
      Op.xSetWMProtocols],
     some { display := env.displayHandle, window := env.windowId,
            screen := env.screen, wm_protocols := env.protocolsAtom,
            wm_delete_window := env.deleteWindowAtom })

/-- `X11Window::show` (src/main.rs:92-96): issues `XMapWindow` and touches no
field of the struct. -/
def X11Window.show (w : X11Window) : X11Window × List Op :=
  (w, [Op.xMapWindow])

/-- `X11Window::poll` (src/main.rs:99-118): while events are pending, fetch
the next one into the caller's buffer (`XNextEvent` overwrites the buffer
before `XFilterEvent` is consulted, so filtered events are written too), skip
the type dispatch for filtered events, and otherwise run the dispatch, whose
arms are all empty.  Returns the final buffer contents and the events still
pending on return (the loop runs until `XPending` is zero, so none are). -/
def X11Window.poll (w : X11Window) :
    List QueuedEvent → XEvent → XEvent × List QueuedEvent
  | [], event => (event, [])
  | (e, filtered) :: rest, _event =>
    let event := e
    if filtered then
      w.poll rest event
    else
      match event with
      | XEvent.clientMessage _ => w.poll rest event
      | XEvent.keyPress => w.poll rest event
      | XEvent.keyRelease => w.poll rest event
      | XEvent.buttonPress => w.poll rest event
      | XEvent.buttonRelease => w.poll rest event
      | XEvent.motionNotify => w.poll rest event
      | XEvent.other _ => w.poll rest event

/-- The close check of the main loop (src/main.rs:226-240): the buffer holds
a `ClientMessage` whose `message_type` equals `wm_protocols`, whose `format`
is 32, and whose first data word, cast to an atom, equals
`wm_delete_window`. -/
def closeRequested (w : X11Window) (event : XEvent) : Bool :=
  match event with
  | XEvent.clientMessage xclient =>
    xclient.message_type == w.wm_protocols && xclient.format == 32 &&
      longToAtom xclient.data0 == w.wm_delete_window
  | _ => false

/-- The command buffer recorded each frame (src/main.rs:248-265): one render
pass whose single color attachment clears to `Color::GREEN` with `store:
true`, then `set_pipeline` and `draw(0..3, 0..1)`; no `set_vertex_buffer`
call occurs. -/
def recordFrameCommands (format : Nat) : CommandBuffer :=
  { passes := [({ loadClear := Color.GREEN, store := true },
    [PassCmd.setPipeline (render_pipeline format),
     PassCmd.draw 0 3 0 1])] }

/-- The per-frame rendering tail of a loop iteration (src/main.rs:242-269):
acquire the next swapchain texture (`expect` — a panic, with no retry, when
acquisition fails), create a view, record and submit the frame's command
buffer, then drop the view and the frame.  Returns the emitted operations
and whether the iteration panicked. -/
def renderFrame (format : Nat) (frameOk : Bool) : List Op × Bool :=
  if frameOk then
    ([Op.acquireFrame, Op.createView,
      Op.submit (recordFrameCommands format),
      Op.dropView, Op.dropFrame], false)
  else
    ([Op.acquireFrame,
      Op.fatal "Failed to acquire next swap chain texture"], true)

/-- The external inputs consumed by one loop iteration: the events queued at
the moment `poll` is called, and whether `get_current_texture` succeeds. -/
structure IterIn where
  queue : List QueuedEvent
  frameOk : Bool
deriving Repr

/-- Outcome of one loop iteration. -/
inductive LoopOutcome where
  | broke
  | panicked
  | ran
deriving DecidableEq, Repr

/-- One iteration of the main loop (src/main.rs:223-270): drain pending
events into the buffer, break when the buffer now satisfies the close check,
and otherwise render one frame.  Returns the buffer contents after the
iteration, the operations emitted, and the outcome. -/
def loopStep (w : X11Window) (format : Nat) (event : XEvent)
    (inp : IterIn) : XEvent × List Op × LoopOutcome :=
  let polled := w.poll inp.queue event
  let event := polled.1
  if closeRequested w event then
    (event, [], LoopOutcome.broke)
  else
    let rendered := renderFrame format inp.frameOk
    (event, rendered.1,
      if rendered.2 then LoopOutcome.panicked else LoopOutcome.ran)

/-- How a run of the main loop ended over the supplied inputs. -/
inductive LoopRes where
  | closed
  | panicked
  | stillRunning
deriving DecidableEq, Repr

/-- The main loop, iterated over the per-iteration inputs the environment
supplies.  When the inputs run out with the loop neither broken nor
panicked, the program is still running (`stillRunning`). -/
def mainLoop (w : X11Window) (format : Nat) :
    XEvent → List IterIn → List Op × LoopRes
  | _, [] => ([], LoopRes.stillRunning)
  | event, inp :: rest =>
    match loopStep w format event inp with
    | (_, ops, LoopOutcome.broke) => (ops, LoopRes.closed)
    | (_, ops, LoopOutcome.panicked) => (ops, LoopRes.panicked)
    | (event, ops, LoopOutcome.ran) =>
      let next := mainLoop w format event rest
      (ops ++ next.1, next.2)

/-- `wgpu::PresentMode` values in scope. -/
inductive PresentMode where
  | autoVsync
deriving DecidableEq, Repr

/-- `wgpu::TextureUsages` values in scope. -/
inductive TextureUsage where
  | renderAttachment
deriving DecidableEq, Repr

/-- `wgpu::AlphaMode` handles are opaque; identified by their index-free
backend value. -/
abbrev AlphaMode := Nat

/-- The `wgpu::SurfaceConfiguration` built in `main` (src/main.rs:210-217). -/
structure SurfaceConfiguration where
  usage : TextureUsage
  format : Nat
  width : Nat
  height : Nat
  presentMode : PresentMode
  alphaMode : AlphaMode
deriving DecidableEq, Repr

/-- Everything the environment decides during one run of `main`: the display
server's replies to `new`, whether the adapter and device requests succeed,
the supported-format and supported-alpha-mode lists the backend reports, the
junk contents of the uninitialized event buffer, and the per-iteration loop
inputs. -/
structure Env where
  server : NewEnv
  adapterOk : Bool
  deviceOk : Bool
  formats : List Nat
  alphaModes : List AlphaMode
  initEvent : XEvent
  iters : List IterIn
deriving Repr

/-- How a modelled run of `main` ended. -/
inductive MainExit where
  | normal
  | panicked
  | stillRunning
deriving DecidableEq, Repr

/-- Result of a modelled run of `main`: the full operation trace, the exit
kind, and the surface configuration if the run reached `surface.configure`. -/
structure MainResult where
  trace : List Op
  exit : MainExit
  config : Option SurfaceConfiguration
deriving Repr

/-- The two operations `X11Window`'s `Drop` impl issues (src/main.rs:139-147):
`XDestroyWindow` then `XCloseDisplay`, in that order. -/
def dropOps : List Op :=
  [Op.xDestroyWindow, Op.xCloseDisplay]

/-- The fixed window title of `main` (src/main.rs:152). -/
def mainTitle : List Nat :=
  strBytes "hello-sailor"

/-- Tail of `main` from the loop onward (src/main.rs:223-271): append the
loop's operations and, unless the loop is still running when the supplied
inputs end, the `Drop` operations of the window (on a normal break and on a
panic inside the loop the window's `Drop` runs exactly once at scope
exit). -/
def finishRun (startOps : List Op) (config : SurfaceConfiguration)
    (looped : List Op × LoopRes) : MainResult :=
  match looped.2 with
  | LoopRes.closed =>
    { trace := startOps ++ looped.1 ++ dropOps,
      exit := MainExit.normal, config := some config }
  | LoopRes.panicked =>
    { trace := startOps ++ looped.1 ++ dropOps,
      exit := MainExit.panicked, config := some config }
  | LoopRes.stillRunning =>
    { trace := startOps ++ looped.1,
      exit := MainExit.stillRunning, config := some config }

/-- `main` (src/main.rs:149-271): construct the window (a panic there leaves
nothing to drop, since the `X11Window` value was never built), `show` it, run
the blocking adapter and device requests (`expect` on failure — the
constructed window unwinds, running its `Drop`), select
`get_supported_formats(&adapter)[0]` and `get_supported_alpha_modes(&adapter)[0]`
(indexing an empty slice is a panic), configure the surface, and run the main
loop. -/
def mainFn (env : Env) : MainResult :=
  match X11Window.new env.server mainTitle with
  | (ops, none) =>
    { trace := ops, exit := MainExit.panicked, config := none }
  | (ops, some w0) =>
    if !env.adapterOk then
      { trace := ops ++ (X11Window.show w0).2
          ++ [Op.fatal "Failed to find an appropriate adapter"] ++ dropOps,
        exit := MainExit.panicked, config := none }
    else if !env.deviceOk then
      { trace := ops ++ (X11Window.show w0).2
          ++ [Op.fatal "Failed to create device"] ++ dropOps,
        exit := MainExit.panicked, config := none }
    else
      match env.formats with
      | [] =>
        { trace := ops ++ (X11Window.show w0).2
            ++ [Op.fatal "index out of bounds"] ++ dropOps,
          exit := MainExit.panicked, config := none }
      | swapchain_format :: _ =>
        match env.alphaModes with
        | [] =>
          { trace := ops ++ (X11Window.show w0).2
              ++ [Op.fatal "index out of bounds"] ++ dropOps,
            exit := MainExit.panicked, config := none }
        | alpha0 :: _ =>
          finishRun (ops ++ (X11Window.show w0).2)
            { usage := TextureUsage.renderAttachment,
              format := swapchain_format,
              width := 800, height := 600,
              presentMode := PresentMode.autoVsync,
              alphaMode := alpha0 }
            (mainLoop (X11Window.show w0).1 swapchain_format
              env.initEvent env.iters)

/-- After a drain, the buffer holds the last fetched event — filtered or not —
or its previous contents when the queue was empty. -/
theorem poll_fst (w : X11Window) :
    ∀ (q : List QueuedEvent) (prev : XEvent),
      (w.poll q prev).1 = (q.map Prod.fst).getLastD prev := by
  intro q
  induction q with
  | nil => intro prev; rfl
  | cons head rest ih =>
    intro prev
    obtain ⟨e, filtered⟩ := head
    cases filtered <;> cases e <;>
      simp only [X11Window.poll, List.map_cons, List.getLastD_cons] <;>
      exact ih _

/-- A drain leaves no event pending on return. -/
theorem poll_snd (w : X11Window) :
    ∀ (q : List QueuedEvent) (prev : XEvent), (w.poll q prev).2 = [] := by
  intro q
  induction q with
  | nil => intro prev; rfl
  | cons head rest ih =>
    intro prev
    obtain ⟨e, filtered⟩ := head
    cases filtered <;> cases e <;> simp [X11Window.poll, ih]

/-- The operations of one loop iteration never include the teardown calls. -/
theorem loopStep_no_release (w : X11Window) (fmt : Nat) (ev : XEvent)
    (inp : IterIn) :
    Op.xDestroyWindow ∉ (loopStep w fmt ev inp).2.1 ∧
    Op.xCloseDisplay ∉ (loopStep w fmt ev inp).2.1 := by
  simp only [loopStep, renderFrame]
  split <;> [skip; split] <;> simp

/-- The operations of a loop run never include the teardown calls. -/
theorem mainLoop_no_release (w : X11Window) (fmt : Nat) :
    ∀ (iters : List IterIn) (ev : XEvent),
      Op.xDestroyWindow ∉ (mainLoop w fmt ev iters).1 ∧
      Op.xCloseDisplay ∉ (mainLoop w fmt ev iters).1 := by
  intro iters
  induction iters with
  | nil => intro ev; simp [mainLoop]
  | cons inp rest ih =>
    intro ev
    have hstep := loopStep_no_release w fmt ev inp
    simp only [mainLoop]
    rcases hs : loopStep w fmt ev inp with ⟨ev2, ops, out⟩
    rw [hs] at hstep
    cases out <;>
      simp_all [List.mem_append]

/-- `XDestroyWindow` never occurs among a loop run's operations. -/
theorem mainLoop_no_destroy (w : X11Window) (fmt : Nat)
    (iters : List IterIn) (ev : XEvent) :
    Op.xDestroyWindow ∉ (mainLoop w fmt ev iters).1 :=
  (mainLoop_no_release w fmt iters ev).1

/-- `XCloseDisplay` never occurs among a loop run's operations. -/
theorem mainLoop_no_close (w : X11Window) (fmt : Nat)
    (iters : List IterIn) (ev : XEvent) :
    Op.xCloseDisplay ∉ (mainLoop w fmt ev iters).1 :=
  (mainLoop_no_release w fmt iters ev).2

/-- A trace of the form `pre ++ dropOps` with no release operation in `pre`
performs destroy-then-close exactly once. -/
theorem release_shape (pre : List Op)
    (h1 : Op.xDestroyWindow ∉ pre) (h2 : Op.xCloseDisplay ∉ pre) :
    ∃ p, pre ++ dropOps = p ++ [Op.xDestroyWindow, Op.xCloseDisplay] ∧
      Op.xDestroyWindow ∉ p ∧ Op.xCloseDisplay ∉ p ∧
      (pre ++ dropOps).count Op.xDestroyWindow = 1 ∧
      (pre ++ dropOps).count Op.xCloseDisplay = 1 := by
  refine ⟨pre, rfl, h1, h2, ?_, ?_⟩ <;>
    simp [dropOps, List.count_append, List.count_eq_zero_of_not_mem, h1, h2,
      List.count_cons]

/-- Unless the loop is still running, `finishRun` appends the two teardown
operations after a prefix that contains neither. -/
theorem finishRun_shape (startOps : List Op) (config : SurfaceConfiguration)
    (looped : List Op × LoopRes)
    (h1 : Op.xDestroyWindow ∉ startOps ++ looped.1)
    (h2 : Op.xCloseDisplay ∉ startOps ++ looped.1) :
    (finishRun startOps config looped).exit = MainExit.stillRunning ∨
    ∃ pre, (finishRun startOps config looped).trace = pre ++ dropOps ∧
      Op.xDestroyWindow ∉ pre ∧ Op.xCloseDisplay ∉ pre := by
  rcases looped with ⟨lops, lres⟩
  cases lres with
  | closed => exact Or.inr ⟨_, rfl, h1, h2⟩
  | panicked => exact Or.inr ⟨_, rfl, h1, h2⟩
  | stillRunning => exact Or.inl rfl

/-- C3 (Teardown ordering and exactly-once release): on every modelled exit
of `mainFn` — normal break out of the loop, or a panic-driven unwind — in
which the window handle was constructed (the display connection opened; the
fixed title has no NUL byte, so construction then succeeds), the trace
releases the window with `XDestroyWindow` immediately before `XCloseDisplay`,
and each of the two release operations appears exactly once in the whole
trace. -/
theorem c3_teardown_exactly_once (env : Env)
    (hd : env.server.displayOk = true)
    (hx : (mainFn env).exit ≠ MainExit.stillRunning) :
    ∃ pre,
      (mainFn env).trace = pre ++ [Op.xDestroyWindow, Op.xCloseDisplay] ∧
      Op.xDestroyWindow ∉ pre ∧ Op.xCloseDisplay ∉ pre ∧
      (mainFn env).trace.count Op.xDestroyWindow = 1 ∧
      (mainFn env).trace.count Op.xCloseDisplay = 1 := by
  have hti : titleHasNul mainTitle = false := by decide
  have hnew : X11Window.new env.server mainTitle =
      ([Op.xOpenDisplay, Op.xCreateWindow, Op.xStoreName,
        Op.xInternAtom "WM_PROTOCOLS", Op.xInternAtom "WM_DELETE_WINDOW",
        Op.xSetWMProtocols],
       some { display := env.server.displayHandle,
              window := env.server.windowId, screen := env.server.screen,
              wm_protocols := env.server.protocolsAtom,
              wm_delete_window := env.server.deleteWindowAtom }) := by
    simp [X11Window.new, hd, hti]
  suffices h : (mainFn env).exit = MainExit.stillRunning ∨
      ∃ pre, (mainFn env).trace = pre ++ dropOps ∧
        Op.xDestroyWindow ∉ pre ∧ Op.xCloseDisplay ∉ pre by
    rcases h with h | ⟨pre, htr, h1, h2⟩
    · exact absurd h hx
    · rw [htr]
      exact release_shape pre h1 h2
  simp only [mainFn, hnew, X11Window.show]
  split
  · exact Or.inr ⟨_, rfl, by decide, by decide⟩
  · split
    · exact Or.inr ⟨_, rfl, by decide, by decide⟩
    · split
      · exact Or.inr ⟨_, rfl, by decide, by decide⟩
      · split
        · exact Or.inr ⟨_, rfl, by decide, by decide⟩
        · apply finishRun_shape
          · simp [List.mem_append, mainLoop_no_destroy]
          · simp [List.mem_append, mainLoop_no_close]

/-- The last element of a list with an appended singleton. -/
theorem getLastD_append_singleton {α : Type} (l : List α) (e d : α) :
    (l ++ [e]).getLastD d = e := by
  induction l generalizing d with
  | nil => rfl
  | cons a t ih => rw [List.cons_append, List.getLastD_cons, ih]

/-- A loop iteration breaks exactly when the buffer left by its drain
satisfies the code's close check. -/
theorem loopStep_broke_iff (w : X11Window) (fmt : Nat) (prev : XEvent)
    (inp : IterIn) :
    (loopStep w fmt prev inp).2.2 = LoopOutcome.broke ↔
      closeRequested w (w.poll inp.queue prev).1 = true := by
  simp only [loopStep]
  by_cases hb : closeRequested w (w.poll inp.queue prev).1 = true
  · simp [hb]
  · simp only [Bool.not_eq_true] at hb
    simp only [hb, Bool.false_eq_true, if_false, renderFrame]
    constructor
    · intro h
      cases hOk : inp.frameOk <;> simp [hOk] at h
    · intro h
      simp at h

/-- A concrete window handle used by the closed witnesses: atoms 100
(supported protocols) and 101 (delete window). -/
def w0 : X11Window :=
  { display := 1, window := 7, screen := 0, wm_protocols := 100,
    wm_delete_window := 101 }

/-- Concrete display-server replies used by the closed witnesses. -/
def w0srv : NewEnv :=
  { displayOk := true, displayHandle := 1, screen := 0, windowId := 7,
    protocolsAtom := 100, deleteWindowAtom := 101 }

/-- A client message matching `w0`'s close protocol: message type 100,
format 32, first data word 101. -/
def closeEv : XEvent :=
  XEvent.clientMessage { message_type := 100, format := 32, data0 := 101 }

/-- A concrete environment in which every request succeeds and the single
loop iteration drains exactly the matching close message. -/
def env0 : Env :=
  { server := w0srv, adapterOk := true, deviceOk := true, formats := [5],
    alphaModes := [3], initEvent := XEvent.other 0,
    iters := [{ queue := [(closeEv, false)], frameOk := true }] }

/-- The close predicate on a single event exactly as claim C1 words it: a
client message whose message type is the supported-protocols atom and whose
first data word is the delete-window atom (no condition on `format`). -/
def specCloseEvent (w : X11Window) (e : XEvent) : Bool :=
  match e with
  | XEvent.clientMessage m =>
    m.message_type == w.wm_protocols &&
      longToAtom m.data0 == w.wm_delete_window
  | _ => false

/-- Claim C1 as stated: in every loop iteration, the loop breaks iff some
event of the drained sequence satisfies the claim's close predicate. -/
def claimC1 : Prop :=
  ∀ (w : X11Window) (fmt : Nat) (prev : XEvent) (inp : IterIn),
    (loopStep w fmt prev inp).2.2 = LoopOutcome.broke ↔
      ∃ e ∈ inp.queue.map Prod.fst, specCloseEvent w e = true

/-- C1 (counterexample): claim C1 is false.  Draining the matching close
message followed by a motion event leaves the motion event in the buffer, so
the iteration does not break although some drained event matches. -/
theorem c1_counterexample : ¬ claimC1 := by
  intro h
  have hiff := h w0 0 (XEvent.other 0)
    { queue := [(closeEv, false), (XEvent.motionNotify, false)],
      frameOk := true }
  have hb : (loopStep w0 0 (XEvent.other 0)
      { queue := [(closeEv, false), (XEvent.motionNotify, false)],
        frameOk := true }).2.2 ≠ LoopOutcome.broke := by decide
  exact hb (hiff.2 ⟨closeEv, by decide, by decide⟩)

/-- The close condition the code implements, on a single event — the amended
form of the claim's predicate: additionally the event's `format` must be 32,
and the first data word is compared after the cast to an atom. -/
def amendedCloseEvent (w : X11Window) (e : XEvent) : Bool :=
  match e with
  | XEvent.clientMessage m =>
    m.message_type == w.wm_protocols && m.format == 32 &&
      longToAtom m.data0 == w.wm_delete_window
  | _ => false

/-- C1 (amended): in every loop iteration the loop breaks iff the event left
in the buffer at the end of the drain — the last drained event, or the
buffer's previous contents when nothing was drained — is a client message
whose message type is the supported-protocols atom, whose format is 32, and
whose first data word, cast to an atom, is the delete-window atom. -/
theorem c1_close_detection_last_event (w : X11Window) (fmt : Nat)
    (prev : XEvent) (inp : IterIn) :
    (loopStep w fmt prev inp).2.2 = LoopOutcome.broke ↔
      amendedCloseEvent w ((inp.queue.map Prod.fst).getLastD prev) = true := by
  have hclose : ∀ e, amendedCloseEvent w e = closeRequested w e := by
    intro e
    cases e <;> rfl
  rw [loopStep_broke_iff, poll_fst, hclose]

/-- Claim C2 as stated: with a NUL-carrying title, construction fails with an
error reported to the caller — not a panic — and allocates no window or
display resources. -/
def claimC2 : Prop :=
  ∀ (server : NewEnv) (title : List Nat), titleHasNul title = true →
    (X11Window.new server title).2 = none ∧
    (∀ msg, Op.fatal msg ∉ (X11Window.new server title).1) ∧
    Op.xOpenDisplay ∉ (X11Window.new server title).1 ∧
    Op.xCreateWindow ∉ (X11Window.new server title).1

/-- A title whose bytes hold an embedded NUL. -/
def nulTitle : List Nat :=
  [104, 0]

/-- C2 (counterexample): claim C2 is false.  With the display connection
available and the title `[104, 0]`, construction opens the display and
creates the window before the `CString::new(..).unwrap()` call panics, so
resources are allocated and the failure is a panic rather than a returned
error. -/
theorem c2_counterexample : ¬ claimC2 := by
  intro h
  exact (h w0srv nulTitle (by decide)).2.2.1 (by decide)

/-- C2 (amended): for every title with an embedded NUL byte, when the
display connection opens, construction panics at the `unwrap` of
`CString::new` — there is no `InvalidTitle` error path — and at that point
the display connection and the window have already been created and are
never released (the `X11Window` value was never constructed, so its `Drop`
cannot run). -/
theorem c2_nul_title_aborts_after_alloc (server : NewEnv)
    (title : List Nat) (hd : server.displayOk = true)
    (ht : titleHasNul title = true) :
    X11Window.new server title =
      ([Op.xOpenDisplay, Op.xCreateWindow,
        Op.fatal "called Result::unwrap on an Err value: NulError"], none) ∧
    Op.xDestroyWindow ∉ (X11Window.new server title).1 ∧
    Op.xCloseDisplay ∉ (X11Window.new server title).1 := by
  have hmain : X11Window.new server title =
      ([Op.xOpenDisplay, Op.xCreateWindow,
        Op.fatal "called Result::unwrap on an Err value: NulError"], none) := by
    simp [X11Window.new, hd, ht]
  refine ⟨hmain, ?_, ?_⟩ <;> rw [hmain] <;> decide

/-- C2 (witness): the amended statement evaluated at the concrete server
replies `w0srv` and the concrete title `[104, 0]`. -/
theorem c2_witness :
    X11Window.new w0srv nulTitle =
      ([Op.xOpenDisplay, Op.xCreateWindow,
        Op.fatal "called Result::unwrap on an Err value: NulError"], none) ∧
    Op.xDestroyWindow ∉ (X11Window.new w0srv nulTitle).1 ∧
    Op.xCloseDisplay ∉ (X11Window.new w0srv nulTitle).1 :=
  c2_nul_title_aborts_after_alloc w0srv nulTitle (by decide) (by decide)

/-- C4: a drained client message whose message type and first data word both
match the registered atoms but whose format is not 32 does not terminate the
loop. -/
theorem c4_format_guard (w : X11Window) (fmt : Nat) (prev : XEvent)
    (m : XClientMessageEvent) (fOk : Bool)
    (hmt : m.message_type = w.wm_protocols)
    (hdw : longToAtom m.data0 = w.wm_delete_window)
    (hf : m.format ≠ 32) :
    (loopStep w fmt prev
      { queue := [(XEvent.clientMessage m, false)], frameOk := fOk }).2.2 ≠
      LoopOutcome.broke := by
  rw [Ne, loopStep_broke_iff, poll_fst]
  simp [closeRequested, List.getLastD_cons, hf]

/-- A client message matching `w0`'s atoms but carrying format 16. -/
def c4m : XClientMessageEvent :=
  { message_type := 100, format := 16, data0 := 101 }

/-- C4 (witness): the format guard evaluated at the concrete window `w0` and
the format-16 message `c4m`. -/
theorem c4_witness :
    (loopStep w0 0 (XEvent.other 0)
      { queue := [(XEvent.clientMessage c4m, false)], frameOk := true }).2.2 ≠
      LoopOutcome.broke :=
  c4_format_guard w0 0 (XEvent.other 0) c4m true (by decide) (by decide)
    (by decide)

/-- C5: every fetched event is written to the caller's buffer, filtered ones
included; when the last pending event of a drain is consumed by the input
method filter, that filtered event is what remains in the buffer, and the
iteration's close check inspects exactly it. -/
theorem c5_filtered_event_still_checked (w : X11Window) (fmt : Nat)
    (prev : XEvent) (q : List QueuedEvent) (e : XEvent) (fOk : Bool) :
    (w.poll (q ++ [(e, true)]) prev).1 = e ∧
    ((loopStep w fmt prev { queue := q ++ [(e, true)], frameOk := fOk }).2.2 =
        LoopOutcome.broke ↔ closeRequested w e = true) := by
  have h1 : (w.poll (q ++ [(e, true)]) prev).1 = e := by
    rw [poll_fst, List.map_append, List.map_cons, List.map_nil,
      getLastD_append_singleton]
  refine ⟨h1, ?_⟩
  rw [loopStep_broke_iff]
  exact Eq.to_iff (by rw [h1])

/-- C6: the drain processes exactly the events queued at the moment of the
call and leaves nothing pending (in the model it is a total function — its
recursion is structural in the queue, so it terminates without waiting for
further events), and a drain over an empty queue returns the buffer
untouched immediately. -/
theorem c6_drain_terminates (w : X11Window) (q : List QueuedEvent)
    (prev : XEvent) :
    (w.poll q prev).2 = [] ∧ w.poll [] prev = (prev, []) :=
  ⟨poll_snd w q prev, rfl⟩

/-- `show` applied `n` times, accumulating the issued operations. -/
def showTimes (w : X11Window) : Nat → X11Window × List Op
  | 0 => (w, [])
  | n + 1 =>
    let s := X11Window.show w
    let rest := showTimes s.1 n
    (rest.1, s.2 ++ rest.2)

/-- C7: invoking `show` any number of times leaves the window identifier,
the display handle, the screen index, and the two registered atoms of the
handle unchanged. -/
theorem c7_show_preserves_fields (w : X11Window) (n : Nat) :
    (showTimes w n).1.window = w.window ∧
    (showTimes w n).1.display = w.display ∧
    (showTimes w n).1.screen = w.screen ∧
    (showTimes w n).1.wm_protocols = w.wm_protocols ∧
    (showTimes w n).1.wm_delete_window = w.wm_delete_window := by
  have h : (showTimes w n).1 = w := by
    induction n with
    | zero => rfl
    | succ k ih => simpa [showTimes, X11Window.show] using ih
  simp [h]

/-- The command buffers submitted among a list of operations. -/
def submitsOf (ops : List Op) : List CommandBuffer :=
  ops.filterMap fun op =>
    match op with
    | Op.submit cb => some cb
    | _ => none

/-- All draw calls recorded in a command buffer. -/
def drawsOf (cb : CommandBuffer) : List PassCmd :=
  cb.passes.flatMap fun p =>
    p.2.filter fun c =>
      match c with
      | PassCmd.draw _ _ _ _ => true
      | _ => false

/-- All vertex-buffer bindings recorded in a command buffer. -/
def vertexBindingsOf (cb : CommandBuffer) : List PassCmd :=
  cb.passes.flatMap fun p =>
    p.2.filter fun c =>
      match c with
      | PassCmd.setVertexBuffer _ => true
      | _ => false

/-- The clear colors of a command buffer's passes. -/
def clearColorsOf (cb : CommandBuffer) : List Color :=
  cb.passes.map fun p => p.1.loadClear

/-- C8: in a loop iteration whose drain does not leave the close signal in
the buffer, the driver acquires the next frame (and when acquisition fails
the iteration panics after that single acquisition attempt — no retry),
creates a view, submits exactly one command buffer holding one render pass
that clears to the fixed color `GREEN` and issues exactly one draw call over
vertex range 0..3 and instance range 0..1, with no vertex buffer bound
(neither in the pipeline layout nor by a pass command), and then releases
the view and the frame, in that order. -/
theorem c8_per_frame_commands (w : X11Window) (fmt : Nat) (prev : XEvent)
    (inp : IterIn)
    (hclose : closeRequested w (w.poll inp.queue prev).1 = false) :
    (inp.frameOk = true →
      (loopStep w fmt prev inp).2.1 =
        [Op.acquireFrame, Op.createView,
         Op.submit (recordFrameCommands fmt), Op.dropView, Op.dropFrame] ∧
      (loopStep w fmt prev inp).2.2 = LoopOutcome.ran ∧
      submitsOf (loopStep w fmt prev inp).2.1 = [recordFrameCommands fmt] ∧
      (recordFrameCommands fmt).passes.length = 1 ∧
      drawsOf (recordFrameCommands fmt) = [PassCmd.draw 0 3 0 1] ∧
      vertexBindingsOf (recordFrameCommands fmt) = [] ∧
      clearColorsOf (recordFrameCommands fmt) = [Color.GREEN] ∧
      (render_pipeline fmt).vertexBuffers = []) ∧
    (inp.frameOk = false →
      (loopStep w fmt prev inp).2.1 =
        [Op.acquireFrame,
         Op.fatal "Failed to acquire next swap chain texture"] ∧
      (loopStep w fmt prev inp).2.2 = LoopOutcome.panicked ∧
      (loopStep w fmt prev inp).2.1.count Op.acquireFrame = 1) := by
  constructor <;> intro hOk <;>
    simp [loopStep, hclose, renderFrame, hOk, submitsOf, recordFrameCommands,
      drawsOf, vertexBindingsOf, clearColorsOf, render_pipeline,
      List.count_cons]

/-- C8 (witness): the per-frame command sequence evaluated at the concrete
window `w0`, format 5, an empty drain, and successful frame acquisition. -/
theorem c8_witness :
    (loopStep w0 5 (XEvent.other 0) { queue := [], frameOk := true }).2.1 =
      [Op.acquireFrame, Op.createView, Op.submit (recordFrameCommands 5),
       Op.dropView, Op.dropFrame] ∧
    drawsOf (recordFrameCommands 5) = [PassCmd.draw 0 3 0 1] :=
  have h := (c8_per_frame_commands w0 5 (XEvent.other 0)
    { queue := [], frameOk := true } (by decide)).1 rfl
  ⟨h.1, h.2.2.2.2.1⟩

/-- In every branch, `finishRun` reports the configuration it was given. -/
theorem finishRun_config (startOps : List Op) (config : SurfaceConfiguration)
    (looped : List Op × LoopRes) :
    (finishRun startOps config looped).config = some config := by
  rcases looped with ⟨lops, lres⟩
  cases lres <;> rfl

/-- C9: whenever a run of `main` reaches surface configuration, the format
and alpha mode placed in the configuration are exactly the first entries of
the backend's reported supported-formats and supported-alpha-modes lists —
no reordering or preference ranking. -/
theorem c9_first_entry_selection (env : Env) (c : SurfaceConfiguration)
    (hc : (mainFn env).config = some c) :
    env.formats.head? = some c.format ∧
    env.alphaModes.head? = some c.alphaMode := by
  unfold mainFn at hc
  split at hc
  · simp at hc
  · split at hc
    · simp at hc
    · split at hc
      · simp at hc
      · split at hc
        · simp at hc
        · next xf sf tlf heqF =>
          split at hc
          · simp at hc
          · next xa a0 tla heqM =>
            rw [finishRun_config] at hc
            obtain rfl := Option.some.inj hc
            rw [heqF, heqM]
            exact ⟨rfl, rfl⟩

/-- C9 (witness): in the concrete environment `env0` (supported formats
`[5]`, alpha modes `[3]`) the configuration holds format 5 and alpha mode
3. -/
theorem c9_witness :
    env0.formats.head? =
      some (SurfaceConfiguration.format
        { usage := TextureUsage.renderAttachment, format := 5, width := 800,
          height := 600, presentMode := PresentMode.autoVsync,
          alphaMode := 3 }) ∧
    env0.alphaModes.head? =
      some (SurfaceConfiguration.alphaMode
        { usage := TextureUsage.renderAttachment, format := 5, width := 800,
          height := 600, presentMode := PresentMode.autoVsync,
          alphaMode := 3 }) :=
  c9_first_entry_selection env0
    { usage := TextureUsage.renderAttachment, format := 5, width := 800,
      height := 600, presentMode := PresentMode.autoVsync, alphaMode := 3 }
    (by decide)

/-- C10: a drain over an empty queue leaves the caller's buffer exactly as
it was, and the iteration's close check then inspects that stale buffer
contents — on the very first iteration, the arbitrary value the buffer held
before any event was ever drained. -/
theorem c10_empty_drain_stale_buffer (w : X11Window) (fmt : Nat)
    (b : XEvent) (fOk : Bool) :
    w.poll [] b = (b, []) ∧
    ((loopStep w fmt b { queue := [], frameOk := fOk }).2.2 =
        LoopOutcome.broke ↔ closeRequested w b = true) :=
  ⟨rfl, loopStep_broke_iff w fmt b { queue := [], frameOk := fOk }⟩

/-- C3 (witness): the teardown property evaluated in the concrete
environment `env0`, whose run constructs the window and exits normally. -/
theorem c3_witness :
    ∃ pre,
      (mainFn env0).trace = pre ++ [Op.xDestroyWindow, Op.xCloseDisplay] ∧
      Op.xDestroyWindow ∉ pre ∧ Op.xCloseDisplay ∉ pre ∧
      (mainFn env0).trace.count Op.xDestroyWindow = 1 ∧
      (mainFn env0).trace.count Op.xCloseDisplay = 1 :=
  c3_teardown_exactly_once env0 (by decide) (by decide)
